import Mathlib

/-!
Verification of the MCP server health-check script
(`scripts/check_mcp_servers.py`).

The script runs a fixed ordered list of environment checks (interpreter
version, interpreter path, dependencies, output encoding, module search
path) followed by one short-lived spawn probe per configured worker
script, collects one boolean result per check, prints a summary line and
exits with an aggregate status code.

The embedding below translates each check into a pure Lean function over
an explicit model of the host environment.  Python exceptions are
modelled with `Except`; the only asynchronous event the script handles,
a user interrupt, is modelled as a separate outcome of the whole run.
The child process spawned by a worker probe is modelled by its observable
behaviour: whether the spawn call itself raises, whether the process is
still running when polled after the probe pause, whether it exits within
the 2-second wait that follows a termination request (a process that
ignores the request makes `wait(timeout=2)` raise `TimeoutExpired`), its
exit status and its captured output streams.
-/

namespace MCP

/-- Kinds of Python exception the script distinguishes.  `importError`
is the class caught by the dependency check, `nameError` is raised when
the cleanup block reads the unbound local `process`, `timeoutExpired`
is raised by `process.wait(timeout=2)` when the child does not exit in
time, and `other` stands for any further `Exception` subclass (carrying
its message). -/
inductive PyExc where
  | importError
  | nameError
  | timeoutExpired
  | other (msg : String)
deriving DecidableEq, Repr

/-- `true` exactly when a fallible computation returned normally rather
than raising. -/
def exceptIsOk {ε α : Type} : Except ε α → Bool
  | .ok _ => true
  | .error _ => false

/-! ## String helpers mirroring the Python primitives used -/

/-- Python `str.split('.')` on the underlying character list: splits at
every dot, keeping empty segments (so the result is always nonempty). -/
def splitDots : List Char → List (List Char)
  | [] => [[]]
  | c :: cs =>
    let r := splitDots cs
    if c = '.' then [] :: r
    else
      match r with
      | [] => [[c]]
      | h :: t => (c :: h) :: t

/-- Python `package.split('.')`. -/
def pySplit (s : String) : List String :=
  (splitDots s.data).map (fun cs => String.mk cs)

/-- Python `str.lower()` (character-wise lowercasing). -/
def pyLower (s : String) : String :=
  String.mk (s.data.map Char.toLower)

/-- Python `s[:n]`: the first `n` characters of `s`. -/
def pyTruncate (s : String) (n : Nat) : String :=
  String.mk (s.data.take n)

/-! ## Dependency check (`check_dependencies`) -/

/-- Abstract handle for a loaded Python module or a module attribute. -/
abbrev Module := Nat

/-- The import machinery of the host interpreter, as the dependency
check observes it: `importModule` models `importlib.import_module`
(which either yields a module or raises), and `getattr` models
`getattr(mod, part, None)` (an absent attribute yields `none`). -/
structure ImportEnv where
  importModule : String → Except PyExc Module
  getattr : Module → String → Option Module

/-- The attribute walk of `check_dependencies`: starting from a loaded
top-level module, look up each subsequent dotted part with
`getattr(mod, part, None)`; `none` as soon as one is absent. -/
def walkAttrs (env : ImportEnv) (m : Module) : List String → Option Module
  | [] => some m
  | p :: rest =>
    match env.getattr m p with
    | none => none
    | some m2 => walkAttrs env m2 rest

/-- The body of the per-package `try` block in `check_dependencies`:
split the dotted name; a single-part name is imported directly, a
multi-part name imports its first part and then walks the remaining
parts as attributes, raising `ImportError` when one is `None`. -/
def tryImport (env : ImportEnv) (package : String) : Except PyExc Unit :=
  match pySplit package with
  | [] => .ok ()
  | [top] =>
    match env.importModule top with
    | .ok _ => .ok ()
    | .error e => .error e
  | top :: rest =>
    match env.importModule top with
    | .ok m =>
      match walkAttrs env m rest with
      | some _ => .ok ()
      | none => .error .importError
    | .error e => .error e

/-- One iteration of the package loop: the `try` body wrapped in the
`except ImportError` handler, which converts an import error into a
failed line; any other exception is not caught and propagates. -/
def checkOnePackage (env : ImportEnv) (package : String) : Except PyExc Bool :=
  match tryImport env package with
  | .ok _ => .ok true
  | .error .importError => .ok false
  | .error e => .error e

/-- The fixed dependency list of `check_dependencies`. -/
def required_packages : List String :=
  ["mcp", "mcp.server", "mcp.server.fastmcp", "anthropic", "openai",
   "google.genai", "aiofiles"]

/-- The package loop of `check_dependencies`: threads the `all_ok`
accumulator and records one `(package, ok)` line per processed entry;
an uncaught exception aborts the loop. -/
def depLoop (env : ImportEnv) :
    List String → Bool → Except PyExc (List (String × Bool) × Bool)
  | [], all_ok => .ok ([], all_ok)
  | p :: rest, all_ok =>
    match checkOnePackage env p with
    | .error e => .error e
    | .ok b =>
      match depLoop env rest (all_ok && b) with
      | .error e => .error e
      | .ok (lines, fin) => .ok ((p, b) :: lines, fin)

/-- `check_dependencies`: returns the per-package report lines together
with the aggregate `all_ok` flag, or propagates an uncaught exception. -/
def check_dependencies (env : ImportEnv) :
    Except PyExc (List (String × Bool) × Bool) :=
  depLoop env required_packages true

/-- The spec's notion of an entry resolving: the top-level module
imports and every subsequent dotted name is present as an attribute. -/
def resolvesSpec (env : ImportEnv) (package : String) : Bool :=
  match pySplit package with
  | [] => true
  | top :: rest =>
    match env.importModule top with
    | .ok m => (walkAttrs env m rest).isSome
    | .error _ => false

/-! ## Basic lemmas about the dependency check -/

theorem resolvesSpec_eq_isOk (env : ImportEnv) (p : String) :
    resolvesSpec env p = exceptIsOk (tryImport env p) := by
  unfold resolvesSpec tryImport
  cases hp : pySplit p with
  | nil => rfl
  | cons top rest =>
    cases rest with
    | nil =>
      cases him : env.importModule top with
      | ok m => simp [him, walkAttrs, exceptIsOk]
      | error e => simp [him, exceptIsOk]
    | cons b bs =>
      cases him : env.importModule top with
      | ok m =>
        cases hw : walkAttrs env m (b :: bs) with
        | none => simp [him, hw, exceptIsOk]
        | some m2 => simp [him, hw, exceptIsOk]
      | error e => simp [him, exceptIsOk]

theorem checkOnePackage_ok (env : ImportEnv) (p : String)
    (h : ∀ e, tryImport env p = .error e → e = PyExc.importError) :
    checkOnePackage env p = .ok (resolvesSpec env p) := by
  rw [resolvesSpec_eq_isOk]
  unfold checkOnePackage
  cases ht : tryImport env p with
  | ok u => simp [exceptIsOk]
  | error e =>
    have he := h e ht
    subst he
    simp [exceptIsOk]

theorem depLoop_ok (env : ImportEnv) (ps : List String) (acc : Bool)
    (h : ∀ p ∈ ps, ∀ e, tryImport env p = .error e → e = PyExc.importError) :
    depLoop env ps acc =
      .ok (ps.map (fun p => (p, resolvesSpec env p)),
           acc && ps.all (fun p => resolvesSpec env p)) := by
  induction ps generalizing acc with
  | nil => simp [depLoop]
  | cons p rest ih =>
    have h1 : checkOnePackage env p = .ok (resolvesSpec env p) :=
      checkOnePackage_ok env p (fun e he => h p (by simp) e he)
    have h2 : ∀ q ∈ rest, ∀ e, tryImport env q = .error e →
        e = PyExc.importError :=
      fun q hq e he => h q (by simp [hq]) e he
    unfold depLoop
    rw [h1]
    simp only [ih (acc && resolvesSpec env p) h2]
    simp [List.all_cons, Bool.and_assoc]

/-! ## The simple environment checks -/

/-- Python tuple comparison `version_info >= (3, 8)` on the leading
`(major, minor)` components (when `major = 3` and `minor = 8` the longer
tuple still compares greater-or-equal). -/
def versionAtLeast (major minor reqMajor reqMinor : Nat) : Bool :=
  reqMajor < major || (reqMajor = major && reqMinor ≤ minor)

/-- `check_python_version`: passes exactly when the interpreter version
is at least 3.8. -/
def check_python_version (major minor : Nat) : Bool :=
  versionAtLeast major minor 3 8

/-- `check_python_path`: attempts to run `python --version` inside a
`try`; a failure only prints a warning, and the check returns `True`
unconditionally. -/
def check_python_path (pythonCmd : Except PyExc String) : Bool :=
  match pythonCmd with
  | .ok _ => true
  | .error _ => true

/-- `check_encoding`: `stdoutEnc` models `sys.stdout.encoding` (Python's
`or "unknown"` maps both `None` and the empty string to the sentinel
`"unknown"`), `pioe` models `os.environ.get('PYTHONIOENCODING', 'Not
set')`.  Passes when either value, when present, lowercases to
`"utf-8"`. -/
def check_encoding (stdoutEnc : Option String) (pioe : Option String) : Bool :=
  let stdout_enc :=
    match stdoutEnc with
    | none => "unknown"
    | some s => if s = "" then "unknown" else s
  let pythonioencoding :=
    match pioe with
    | none => "Not set"
    | some t => t
  let stdout_is_utf8 :=
    if stdout_enc ≠ "unknown" then pyLower stdout_enc == "utf-8" else false
  let env_is_utf8 :=
    if pythonioencoding ≠ "Not set" then pyLower pythonioencoding == "utf-8"
    else false
  stdout_is_utf8 || env_is_utf8

/-- `check_pythonpath`: passes when the current working directory, or a
relative `"."` entry, appears in the in-process module search path. -/
def check_pythonpath (currentDir : String) (sysPath : List String) : Bool :=
  sysPath.contains currentDir || sysPath.contains "."

/-! ## Worker probe (`check_mcp_server`) -/

/-- An environment-variable mapping (`os.environ` or the `env=` mapping
passed to `Popen`). -/
abbrev Env := String → Option String

/-- The dictionary `{**os.environ, 'PYTHONIOENCODING': 'utf-8'}` passed
to `Popen`: the parent mapping with the one key overridden. -/
def childEnv (parent : Env) : Env :=
  fun k => if k = "PYTHONIOENCODING" then some "utf-8" else parent k

/-- Runtime state of the spawned child as the probe observes it. -/
inductive ProcState where
  | running
  | exited (code : Int)
  | terminated
deriving DecidableEq, Repr

/-- Observable behaviour of one probe's external world: whether the
script file exists, whether the `Popen` call itself raises (spawn
failures are ordinary `Exception`s), the result of `poll()` after the
probe pause (`none` means still running), whether the child exits
within the 2-second wait that follows a termination request (when it
does not, `wait(timeout=2)` raises `TimeoutExpired`), and the captured
output streams delivered by `communicate()`. -/
structure ProbeInput where
  scriptExists : Bool
  spawnExc : Option PyExc
  pollAfterSleep : Option Int
  diesOnTerminate : Bool
  outText : String
  errText : String

/-- Outcome of the `try` body of `check_mcp_server`: the value returned
or exception raised, the state of the local `process` variable (`none`
when it was never bound), the `env=` mappings passed to each `Popen`
invocation, and the child-output excerpt printed. -/
structure TryOutcome where
  result : Except PyExc Bool
  procVar : Option ProcState
  spawnEnvs : List Env
  surfaced : Option String

/-- The `try` body of `check_mcp_server`: spawn the child with the
UTF-8-forcing environment, pause for the probe duration, poll.  A
still-running child triggers `terminate()` followed by
`wait(timeout=2)` before `return True`: when the child exits within
the wait the body returns `True` with the process terminated, and when
it does not the wait raises `TimeoutExpired` inside the `try`, leaving
the process running.  An exit status of `0` means success with up to
500 characters of stdout surfaced; a nonzero status means failure with
up to 500 characters of stderr surfaced. -/
def probeTry (inp : ProbeInput) (parent : Env) : TryOutcome :=
  match inp.spawnExc with
  | some e =>
    { result := .error e, procVar := none,
      spawnEnvs := [childEnv parent], surfaced := none }
  | none =>
    match inp.pollAfterSleep with
    | none =>
      if inp.diesOnTerminate then
        { result := .ok true, procVar := some .terminated,
          spawnEnvs := [childEnv parent], surfaced := none }
      else
        { result := .error .timeoutExpired, procVar := some .running,
          spawnEnvs := [childEnv parent], surfaced := none }
    | some code =>
      if code = 0 then
        { result := .ok true, procVar := some (.exited code),
          spawnEnvs := [childEnv parent],
          surfaced :=
            if inp.outText = "" then none
            else some (pyTruncate inp.outText 500) }
      else
        { result := .ok false, procVar := some (.exited code),
          spawnEnvs := [childEnv parent],
          surfaced :=
            if inp.errText = "" then none
            else some (pyTruncate inp.errText 500) }

/-- The body of the `try` inside the `finally` block: reading `process`
raises `NameError` when the variable was never bound; a process still
running is terminated and waited for again, the wait raising
`TimeoutExpired` when the child does not exit within it; otherwise
nothing happens. -/
def cleanupBody (dies : Bool) :
    Option ProcState → Except PyExc (Option ProcState)
  | none => .error .nameError
  | some .running =>
    if dies then .ok (some .terminated) else .error .timeoutExpired
  | some s => .ok (some s)

/-- The full `finally` block: the bare `except: pass` swallows whatever
`cleanupBody` raises, leaving the process state unchanged. -/
def cleanup (dies : Bool) (p : Option ProcState) : Option ProcState :=
  match cleanupBody dies p with
  | .ok s => s
  | .error _ => p

/-- Full observable outcome of `check_mcp_server`. -/
structure ProbeOutput where
  result : Except PyExc Bool
  procVar : Option ProcState
  spawnEnvs : List Env
  surfaced : Option String
  envAfter : Env

/-- `check_mcp_server`: a missing script file fails before the
`try`/`finally` is ever entered (no spawn); otherwise the `try` body
runs, the `except Exception` handler converts any exception into a
`False` return, and the `finally` cleanup runs on every path.  The
checker's own environment is never written. -/
def check_mcp_server (inp : ProbeInput) (parent : Env) : ProbeOutput :=
  if inp.scriptExists = false then
    { result := .ok false, procVar := none, spawnEnvs := [],
      surfaced := none, envAfter := parent }
  else
    let t := probeTry inp parent
    let handled : Except PyExc Bool :=
      match t.result with
      | .ok b => .ok b
      | .error _ => .ok false
    { result := handled, procVar := cleanup inp.diesOnTerminate t.procVar,
      spawnEnvs := t.spawnEnvs, surfaced := t.surfaced, envAfter := parent }

/-! ## `main` and the top-level wrapper -/

/-- Everything of the host environment that `main` observes: interpreter
version, the `python --version` sub-command, the import machinery,
stream and variable encodings, working directory and module search path,
the two worker-probe worlds, and the checker's own environment
mapping. -/
structure World where
  major : Nat
  minor : Nat
  pythonCmd : Except PyExc String
  importEnv : ImportEnv
  stdoutEnc : Option String
  pioeVar : Option String
  currentDir : String
  sysPath : List String
  probe1 : ProbeInput
  probe2 : ProbeInput
  osEnviron : Env

/-- The result-collection phase of `main`: one `(label, passed)` pair
per check, in execution order.  An exception escaping a check (only the
dependency check can let one through) aborts the collection. -/
def collectResults (w : World) : Except PyExc (List (String × Bool)) :=
  let r1 := ("Python Version", check_python_version w.major w.minor)
  let r2 := ("Python Path", check_python_path w.pythonCmd)
  match check_dependencies w.importEnv with
  | .error e => .error e
  | .ok dep =>
    let r3 := ("Dependencies", dep.2)
    let r4 := ("Encoding", check_encoding w.stdoutEnc w.pioeVar)
    let r5 := ("PYTHONPATH", check_pythonpath w.currentDir w.sysPath)
    match (check_mcp_server w.probe1 w.osEnviron).result with
    | .error e => .error e
    | .ok b1 =>
      let r6 := ("Command Executor", b1)
      match (check_mcp_server w.probe2 w.osEnviron).result with
      | .error e => .error e
      | .ok b2 =>
        let r7 := ("Code Implementation", b2)
        .ok [r1, r2, r3, r4, r5, r6, r7]

/-- The text between the colour codes of the final summary line
`Total: {passed}/{total} checks passed`. -/
def summaryCore (passed total : Nat) : String :=
  "Total: " ++ Nat.repr passed ++ "/" ++ Nat.repr total ++ " checks passed"

/-- `main`: collect the results, count the passes, and return the
results together with the exit code (`0` when every check passed,
`1` otherwise). -/
def main (w : World) : Except PyExc (List (String × Bool) × Nat) :=
  match collectResults w with
  | .error e => .error e
  | .ok rs =>
    let passed := (rs.filter (fun r => r.2)).length
    let total := rs.length
    .ok (rs, if passed = total then 0 else 1)

/-- Outcome of the whole run as the `if __name__` wrapper sees it: the
value of `main()` (normal or raising), or a user interrupt delivered
during the run. -/
inductive RunResult where
  | finished (v : Except PyExc (List (String × Bool) × Nat))
  | interrupted

/-- The top-level wrapper: `sys.exit(main())` guarded by the
`KeyboardInterrupt` handler (exit 130) and the catch-all `Exception`
handler (print a traceback, exit 1). -/
def topLevelExit : RunResult → Nat
  | .finished (.ok (_, code)) => code
  | .finished (.error _) => 1
  | .interrupted => 130

/-! ## Concrete environments used to instantiate the theorems -/

/-- An import environment in which every module and attribute
resolves. -/
def allOkImportEnv : ImportEnv :=
  { importModule := fun _ => .ok 0, getattr := fun _ _ => some 0 }

/-- An import environment whose imports raise an exception that is not
an `ImportError` (for instance a module whose initialisation code
raises). -/
def raisingImportEnv : ImportEnv :=
  { importModule := fun _ => .error (.other "boom"), getattr := fun _ _ => none }

/-- A probe world whose child process spawns cleanly, is still running
when polled after the probe pause, and exits within the termination
wait. -/
def residentProbe : ProbeInput :=
  { scriptExists := true, spawnExc := none, pollAfterSleep := none,
    diesOnTerminate := true, outText := "", errText := "" }

/-- A probe world whose child process is still running when polled and
ignores the termination request, so that `wait(timeout=2)` raises
`TimeoutExpired`. -/
def stubbornProbe : ProbeInput :=
  { scriptExists := true, spawnExc := none, pollAfterSleep := none,
    diesOnTerminate := false, outText := "", errText := "" }

/-- A probe world whose script path does not exist. -/
def missingProbe : ProbeInput :=
  { scriptExists := false, spawnExc := none, pollAfterSleep := none,
    diesOnTerminate := true, outText := "", errText := "" }

/-- A probe world whose `Popen` call raises. -/
def spawnFailProbe : ProbeInput :=
  { scriptExists := true, spawnExc := some (.other "OSError"),
    pollAfterSleep := none, diesOnTerminate := true,
    outText := "", errText := "" }

/-- A probe world whose child exits immediately with status 0. -/
def exitZeroProbe : ProbeInput :=
  { scriptExists := true, spawnExc := none, pollAfterSleep := some 0,
    diesOnTerminate := true, outText := "ready", errText := "" }

/-- A probe world whose child exits immediately with status 1. -/
def exitOneProbe : ProbeInput :=
  { scriptExists := true, spawnExc := none, pollAfterSleep := some 1,
    diesOnTerminate := true, outText := "", errText := "Traceback" }

/-- A small checker-process environment mapping. -/
def baseEnv : Env :=
  fun k => if k = "HOME" then some "/root" else none

/-- A host environment in which every check passes. -/
def goodWorld : World :=
  { major := 3, minor := 11, pythonCmd := .ok "Python 3.11.0",
    importEnv := allOkImportEnv, stdoutEnc := some "utf-8",
    pioeVar := some "utf-8", currentDir := "/repo", sysPath := ["/repo"],
    probe1 := residentProbe, probe2 := residentProbe, osEnviron := baseEnv }

/-- `goodWorld` with an import machinery that raises a
non-`ImportError` exception. -/
def raisingWorld : World :=
  { goodWorld with importEnv := raisingImportEnv }

/-- The result list `main` collects when every check passes. -/
def goodResults : List (String × Bool) :=
  [("Python Version", true), ("Python Path", true), ("Dependencies", true),
   ("Encoding", true), ("PYTHONPATH", true), ("Command Executor", true),
   ("Code Implementation", true)]

/-! ## Shared helper lemmas -/

theorem filter_length_eq_iff_all {α : Type} (p : α → Bool) (l : List α) :
    (l.filter p).length = l.length ↔ l.all p = true := by
  induction l with
  | nil => simp
  | cons a t ih =>
    by_cases h : p a = true
    · simp [List.filter_cons, h, ih]
    · simp only [List.filter_cons, h, if_neg, Bool.false_eq_true,
        ite_false, List.all_cons, Bool.and_eq_true, List.length_cons]
      constructor
      · intro hlen
        exact absurd hlen
          (Nat.ne_of_lt (Nat.lt_succ_of_le (List.length_filter_le p t)))
      · rintro ⟨hpa, _⟩
        exact hpa.elim

theorem check_dependencies_eq (env : ImportEnv)
    (h : ∀ p ∈ required_packages, ∀ e,
        tryImport env p = .error e → e = PyExc.importError) :
    check_dependencies env =
      .ok (required_packages.map (fun p => (p, resolvesSpec env p)),
           required_packages.all (fun p => resolvesSpec env p)) := by
  unfold check_dependencies
  rw [depLoop_ok env required_packages true h]
  simp

theorem tryImport_all_ok_no_error (env : ImportEnv)
    (h : ∀ p ∈ required_packages, tryImport env p = .ok ()) :
    ∀ p ∈ required_packages, ∀ e,
      tryImport env p = .error e → e = PyExc.importError := by
  intro p hp e he
  rw [h p hp] at he
  exact absurd he (by simp)

theorem probe_result_running (inp : ProbeInput) (parent : Env)
    (hex : inp.scriptExists = true) (hsp : inp.spawnExc = none)
    (hpoll : inp.pollAfterSleep = none) (hdie : inp.diesOnTerminate = true) :
    (check_mcp_server inp parent).result = .ok true := by
  unfold check_mcp_server probeTry
  simp [hex, hsp, hpoll, hdie]

theorem allOk_walkAttrs (l : List String) (m : Module) :
    ∃ m2, walkAttrs allOkImportEnv m l = some m2 := by
  induction l generalizing m with
  | nil => exact ⟨m, rfl⟩
  | cons p rest ih => simpa [walkAttrs, allOkImportEnv] using ih 0

theorem allOk_tryImport (p : String) : tryImport allOkImportEnv p = .ok () := by
  unfold tryImport
  cases hp : pySplit p with
  | nil => rfl
  | cons top rest =>
    cases rest with
    | nil => rfl
    | cons b bs =>
      obtain ⟨m2, hm⟩ := allOk_walkAttrs (b :: bs) 0
      simp only [allOkImportEnv] at hm ⊢
      rw [hm]

theorem pyTruncate_length_le (s : String) (n : Nat) :
    (pyTruncate s n).length ≤ n := by
  show (s.data.take n).length ≤ n
  simp [List.length_take]

theorem spawnEnvs_elem (inp : ProbeInput) (parent : Env) :
    ∀ e ∈ (check_mcp_server inp parent).spawnEnvs, e = childEnv parent := by
  obtain ⟨ex, sp, poll, dies, o, er⟩ := inp
  cases ex with
  | false => intro e he; simp [check_mcp_server] at he
  | true =>
    cases sp with
    | some e0 =>
      intro e he
      simp [check_mcp_server, probeTry] at he
      exact he
    | none =>
      cases poll with
      | none =>
        cases dies <;>
          (intro e he; simp [check_mcp_server, probeTry] at he; exact he)
      | some code =>
        by_cases hc : code = 0 <;>
          (intro e he; simp [check_mcp_server, probeTry, hc] at he; exact he)

theorem check_python_path_true (cmd : Except PyExc String) :
    check_python_path cmd = true := by
  cases cmd <;> rfl

theorem probe_result_isOk (inp : ProbeInput) (parent : Env) :
    exceptIsOk (check_mcp_server inp parent).result = true := by
  unfold check_mcp_server probeTry
  by_cases hex : inp.scriptExists = false
  · simp [hex, exceptIsOk]
  · simp only [hex, ite_false]
    cases hsp : inp.spawnExc with
    | some e => simp [exceptIsOk]
    | none =>
      cases hpoll : inp.pollAfterSleep with
      | none =>
        by_cases hd : inp.diesOnTerminate = true <;>
          simp [hd, exceptIsOk]
      | some code =>
        by_cases hc : code = 0 <;> simp [hc, exceptIsOk]

/-! ## Claim theorems -/

/-- C3 counterexample: a worker probe on an existing script whose
process is still running when polled but ignores the termination
request does not return pass and does not leave the process terminated:
`process.wait(timeout=2)` raises `TimeoutExpired` inside the `try`, the
`except Exception` handler makes the probe return `False`, and the
`finally` block's second terminate-and-wait times out as well, its
error swallowed, leaving the process running. -/
theorem probe_stubborn_fails :
    (check_mcp_server stubbornProbe baseEnv).result = .ok false ∧
    (check_mcp_server stubbornProbe baseEnv).procVar
      = some ProcState.running ∧
    (probeTry stubbornProbe baseEnv).result = .error PyExc.timeoutExpired :=
  ⟨rfl, rfl, rfl⟩

/-- C3 amended: for every worker probe on an existing script whose
process is still running when polled after the full probe duration and
exits within the 2-second wait that follows the termination request,
the probe returns pass (`true`), and by the time the probe returns the
spawned process has been terminated (no lingering process). -/
theorem probe_resident_passes_and_terminates (inp : ProbeInput) (parent : Env)
    (hex : inp.scriptExists = true) (hsp : inp.spawnExc = none)
    (hpoll : inp.pollAfterSleep = none)
    (hdie : inp.diesOnTerminate = true) :
    (check_mcp_server inp parent).result = .ok true ∧
    (check_mcp_server inp parent).procVar = some ProcState.terminated := by
  unfold check_mcp_server probeTry
  simp [hex, hsp, hpoll, hdie, cleanup, cleanupBody]

theorem probe_resident_witness :
    (check_mcp_server residentProbe baseEnv).result = .ok true ∧
    (check_mcp_server residentProbe baseEnv).procVar
      = some ProcState.terminated :=
  probe_resident_passes_and_terminates residentProbe baseEnv rfl rfl rfl rfl

/-- C6: for every worker probe on an existing script whose process has
already exited when polled, an exit status of 0 makes the probe return
pass and surface at most 500 characters of captured standard output,
while a nonzero exit status makes it return fail and surface at most
500 characters of captured standard error. -/
theorem probe_exited_result (inp : ProbeInput) (parent : Env) (code : Int)
    (hex : inp.scriptExists = true) (hsp : inp.spawnExc = none)
    (hpoll : inp.pollAfterSleep = some code) :
    (code = 0 →
      (check_mcp_server inp parent).result = .ok true ∧
      (check_mcp_server inp parent).surfaced =
        (if inp.outText = "" then none
         else some (pyTruncate inp.outText 500))) ∧
    (code ≠ 0 →
      (check_mcp_server inp parent).result = .ok false ∧
      (check_mcp_server inp parent).surfaced =
        (if inp.errText = "" then none
         else some (pyTruncate inp.errText 500))) ∧
    (∀ s, (check_mcp_server inp parent).surfaced = some s →
      s.length ≤ 500) := by
  unfold check_mcp_server probeTry
  by_cases hc : code = 0
  · subst hc
    refine ⟨fun _ => ?_, fun hne => absurd rfl hne, ?_⟩
    · simp [hex, hsp, hpoll]
    · intro s hs
      simp only [hex, hsp, hpoll, Bool.true_eq_false, ite_false] at hs
      by_cases ho : inp.outText = "" <;> simp [ho] at hs
      rw [← hs]
      exact pyTruncate_length_le inp.outText 500
  · refine ⟨fun h0 => absurd h0 hc, fun _ => ?_, ?_⟩
    · simp [hex, hsp, hpoll, hc]
    · intro s hs
      simp only [hex, hsp, hpoll, hc, Bool.true_eq_false, ite_false] at hs
      by_cases he : inp.errText = "" <;> simp [hc, he] at hs
      rw [← hs]
      exact pyTruncate_length_le inp.errText 500

theorem probe_exited_witness :
    ((0 : Int) = 0 →
      (check_mcp_server exitZeroProbe baseEnv).result = .ok true ∧
      (check_mcp_server exitZeroProbe baseEnv).surfaced =
        (if exitZeroProbe.outText = "" then none
         else some (pyTruncate exitZeroProbe.outText 500))) ∧
    ((0 : Int) ≠ 0 →
      (check_mcp_server exitZeroProbe baseEnv).result = .ok false ∧
      (check_mcp_server exitZeroProbe baseEnv).surfaced =
        (if exitZeroProbe.errText = "" then none
         else some (pyTruncate exitZeroProbe.errText 500))) ∧
    (∀ s, (check_mcp_server exitZeroProbe baseEnv).surfaced = some s →
      s.length ≤ 500) :=
  probe_exited_result exitZeroProbe baseEnv 0 rfl rfl rfl

/-- C8: for every worker probe whose script path does not exist, the
probe returns fail immediately and no subprocess is ever created (the
spawn operation is never invoked). -/
theorem probe_missing_no_spawn (inp : ProbeInput) (parent : Env)
    (h : inp.scriptExists = false) :
    (check_mcp_server inp parent).result = .ok false ∧
    (check_mcp_server inp parent).spawnEnvs = [] ∧
    (check_mcp_server inp parent).procVar = none := by
  unfold check_mcp_server
  simp [h]

theorem probe_missing_witness :
    (check_mcp_server missingProbe baseEnv).result = .ok false ∧
    (check_mcp_server missingProbe baseEnv).spawnEnvs = [] ∧
    (check_mcp_server missingProbe baseEnv).procVar = none :=
  probe_missing_no_spawn missingProbe baseEnv rfl

/-- C9: whenever a worker probe spawns a subprocess, the child's
environment carries `PYTHONIOENCODING = "utf-8"` while agreeing with
the checker's environment on every other variable, and the checker's
own environment mapping is left unchanged by the probe. -/
theorem probe_child_env_only (inp : ProbeInput) (parent : Env) :
    (check_mcp_server inp parent).envAfter = parent ∧
    ∀ e ∈ (check_mcp_server inp parent).spawnEnvs,
      e "PYTHONIOENCODING" = some "utf-8" ∧
      ∀ k, k ≠ "PYTHONIOENCODING" → e k = parent k := by
  constructor
  · unfold check_mcp_server
    by_cases h : inp.scriptExists = false <;> simp [h]
  · intro e he
    rw [spawnEnvs_elem inp parent e he]
    constructor
    · simp [childEnv]
    · intro k hk
      simp [childEnv, hk]

theorem probe_child_env_witness :
    (check_mcp_server residentProbe baseEnv).envAfter = baseEnv ∧
    ∀ e ∈ (check_mcp_server residentProbe baseEnv).spawnEnvs,
      e "PYTHONIOENCODING" = some "utf-8" ∧
      ∀ k, k ≠ "PYTHONIOENCODING" → e k = baseEnv k :=
  probe_child_env_only residentProbe baseEnv

/-- C10: when the subprocess spawn itself raises, the worker probe
still returns fail (`false`) cleanly: the `try` body raises, the local
`process` variable is never bound, the best-effort cleanup block raises
an unbound-name error when it reads that variable, swallows it, and the
probe's overall result is an ordinary `false` return with no escaping
exception and no process. -/
theorem probe_spawn_failure_clean (inp : ProbeInput) (parent : Env)
    (e : PyExc) (hex : inp.scriptExists = true)
    (hsp : inp.spawnExc = some e) :
    (probeTry inp parent).result = .error e ∧
    (probeTry inp parent).procVar = none ∧
    cleanupBody inp.diesOnTerminate (probeTry inp parent).procVar
      = .error PyExc.nameError ∧
    (check_mcp_server inp parent).result = .ok false ∧
    (check_mcp_server inp parent).procVar = none := by
  unfold check_mcp_server probeTry cleanup cleanupBody
  simp [hex, hsp]

theorem probe_spawn_failure_witness :
    (probeTry spawnFailProbe baseEnv).result = .error (PyExc.other "OSError") ∧
    (probeTry spawnFailProbe baseEnv).procVar = none ∧
    cleanupBody spawnFailProbe.diesOnTerminate
      (probeTry spawnFailProbe baseEnv).procVar = .error PyExc.nameError ∧
    (check_mcp_server spawnFailProbe baseEnv).result = .ok false ∧
    (check_mcp_server spawnFailProbe baseEnv).procVar = none :=
  probe_spawn_failure_clean spawnFailProbe baseEnv (PyExc.other "OSError")
    rfl rfl

/-- C4: the encoding check passes if and only if the standard-output
stream encoding equals "utf-8" under case-insensitive comparison, or
the `PYTHONIOENCODING` variable is set and equals "utf-8" under
case-insensitive comparison; with both unset or non-UTF-8 (including a
stream encoding of `None`) it fails. -/
theorem encoding_check_iff (stdoutEnc pioe : Option String) :
    check_encoding stdoutEnc pioe = true ↔
      (∃ s, stdoutEnc = some s ∧ pyLower s = "utf-8") ∨
      (∃ t, pioe = some t ∧ pyLower t = "utf-8") := by
  unfold check_encoding
  simp only [Bool.or_eq_true]
  apply or_congr
  · cases stdoutEnc with
    | none => simp
    | some s =>
      by_cases hs : s = ""
      · subst hs
        simp
        intro h
        exact absurd h (by decide)
      · by_cases hu : s = "unknown"
        · subst hu
          simp
          intro h
          exact absurd h (by decide)
        · simp [hs, hu]
  · cases pioe with
    | none => simp
    | some t =>
      by_cases ht : t = "Not set"
      · subst ht
        simp
        intro h
        exact absurd h (by decide)
      · simp [ht]

/-- C5: the dependency check returns pass exactly when every entry of
the fixed dependency list resolves (a dotted entry resolves by
importing its top-level module and walking each subsequent name as an
attribute), a single unresolved entry makes the aggregate fail, and one
result line is reported for every entry; stated for runs in which
resolution failures raise import errors, the class the per-package
handler converts into a failed line. -/
theorem dependencies_check_correct (env : ImportEnv)
    (h : ∀ p ∈ required_packages, ∀ e,
        tryImport env p = .error e → e = PyExc.importError) :
    ∃ lines agg, check_dependencies env = .ok (lines, agg) ∧
      (agg = true ↔ ∀ p ∈ required_packages, resolvesSpec env p = true) ∧
      lines.map Prod.fst = required_packages ∧
      ∀ pr ∈ lines, pr.2 = resolvesSpec env pr.1 := by
  refine ⟨_, _, check_dependencies_eq env h, ?_, ?_, ?_⟩
  · simp [List.all_eq_true]
  · rfl
  · intro pr hpr
    simp only [List.mem_map] at hpr
    obtain ⟨p, hp, rfl⟩ := hpr
    rfl

theorem dependencies_check_witness :
    ∃ lines agg, check_dependencies allOkImportEnv = .ok (lines, agg) ∧
      (agg = true ↔ ∀ p ∈ required_packages,
        resolvesSpec allOkImportEnv p = true) ∧
      lines.map Prod.fst = required_packages ∧
      ∀ pr ∈ lines, pr.2 = resolvesSpec allOkImportEnv pr.1 :=
  dependencies_check_correct allOkImportEnv
    (fun p hp e he => by simp [allOk_tryImport] at he)

/-- C2 counterexample: in a run where importing the first dependency
raises an exception that is not an `ImportError` (for instance a module
whose initialisation code raises), the dependency check does not
convert the error into a boolean result — the exception propagates out
of the check. -/
theorem dependencies_check_propagates :
    check_dependencies raisingImportEnv = .error (PyExc.other "boom") ∧
    exceptIsOk (check_dependencies raisingImportEnv) = false :=
  ⟨rfl, rfl⟩

/-- C2 amended: each check converts the errors it anticipates into a
boolean result — the interpreter-path check and every worker probe
swallow all their internal exceptions, while the dependency check
catches only import errors, so only a non-`ImportError` exception
raised while resolving a dependency can propagate past an individual
check to the top-level catch-all. -/
theorem error_isolation_amended (env : ImportEnv) (inp : ProbeInput)
    (parent : Env) (cmd : Except PyExc String)
    (h : ∀ p ∈ required_packages, ∀ e,
        tryImport env p = .error e → e = PyExc.importError) :
    exceptIsOk (check_dependencies env) = true ∧
    exceptIsOk (check_mcp_server inp parent).result = true ∧
    check_python_path cmd = true := by
  refine ⟨?_, probe_result_isOk inp parent, ?_⟩
  · rw [check_dependencies_eq env h]
    rfl
  · cases cmd <;> rfl

theorem error_isolation_witness :
    exceptIsOk (check_dependencies allOkImportEnv) = true ∧
    exceptIsOk (check_mcp_server residentProbe baseEnv).result = true ∧
    check_python_path (Except.ok "Python 3.11.0") = true :=
  error_isolation_amended allOkImportEnv residentProbe baseEnv
    (.ok "Python 3.11.0")
    (fun p hp e he => by simp [allOk_tryImport] at he)

/-- C7: the process exit code is 0 exactly when every collected check
result is true; it is 1 when at least one result is false or when an
exception escapes the main run loop; and it is 130 when the run is
interrupted by the user. -/
theorem exit_code_policy (w : World) :
    (∀ rs code, main w = .ok (rs, code) →
      topLevelExit (RunResult.finished (main w)) = code ∧
      (code = 0 ↔ rs.all (fun r => r.2) = true) ∧
      (code = 0 ∨ code = 1)) ∧
    (∀ e, main w = .error e →
      topLevelExit (RunResult.finished (main w)) = 1) ∧
    topLevelExit RunResult.interrupted = 130 := by
  refine ⟨?_, ?_, rfl⟩
  · intro rs code hmc
    have hexit : topLevelExit (RunResult.finished (main w)) = code := by
      rw [hmc]
      rfl
    unfold main at hmc
    cases hcr : collectResults w with
    | error e =>
      rw [hcr] at hmc
      exact absurd hmc (by simp)
    | ok rs0 =>
      rw [hcr] at hmc
      simp only [Except.ok.injEq, Prod.mk.injEq] at hmc
      obtain ⟨rfl, rfl⟩ := hmc
      by_cases hall : (rs0.filter (fun r => r.2)).length = rs0.length
      · simp only [if_pos hall] at hexit ⊢
        refine ⟨hexit, ?_, ?_⟩
        · simp [(filter_length_eq_iff_all (fun r => r.2) rs0).mp hall]
        · simp
      · simp only [if_neg hall] at hexit ⊢
        refine ⟨hexit, ?_, ?_⟩
        · constructor
          · intro h0
            exact absurd h0 (by decide)
          · intro hallt
            exact absurd
              ((filter_length_eq_iff_all (fun r => r.2) rs0).mpr hallt) hall
        · simp
  · intro e hme
    rw [hme]
    rfl

theorem exit_code_policy_witness :
    topLevelExit (RunResult.finished (main goodWorld)) = 0 ∧
    topLevelExit RunResult.interrupted = 130 :=
  ⟨((exit_code_policy goodWorld).1 goodResults 0 rfl).1,
   (exit_code_policy goodWorld).2.2⟩

/-- C1 counterexample: in a run where every check passes, the script
collects seven results — the two worker probes are separate entries —
so the printed summary line is "Total: 7/7 checks passed", not the
claimed "6/6 checks passed". -/
theorem summary_counts_seven :
    main goodWorld = .ok (goodResults, 0) ∧
    goodResults.length = 7 ∧
    (goodResults.filter (fun r => r.2)).length = 7 ∧
    summaryCore (goodResults.filter (fun r => r.2)).length goodResults.length
      = "Total: 7/7 checks passed" ∧
    summaryCore (goodResults.filter (fun r => r.2)).length goodResults.length
      ≠ "Total: 6/6 checks passed" :=
  ⟨rfl, rfl, rfl, rfl, by decide⟩

/-- C1 amended: in a run where the interpreter version is at least 3.8,
every entry of the dependency list resolves, UTF-8 encoding is
configured, the current directory is on the module path, and both
worker scripts exist, stay resident for the full probe duration and
exit within the 2-second termination wait, every collected check result
is true, the printed summary reports seven checks passed out of seven
("7/7 checks passed" — the two worker probes are collected as separate
results), and the process exit code is 0. -/
theorem all_good_run (w : World)
    (hver : check_python_version w.major w.minor = true)
    (hdep : ∀ p ∈ required_packages, tryImport w.importEnv p = .ok ())
    (henc : check_encoding w.stdoutEnc w.pioeVar = true)
    (hpath : check_pythonpath w.currentDir w.sysPath = true)
    (hp1e : w.probe1.scriptExists = true) (hp1s : w.probe1.spawnExc = none)
    (hp1r : w.probe1.pollAfterSleep = none)
    (hp1d : w.probe1.diesOnTerminate = true)
    (hp2e : w.probe2.scriptExists = true) (hp2s : w.probe2.spawnExc = none)
    (hp2r : w.probe2.pollAfterSleep = none)
    (hp2d : w.probe2.diesOnTerminate = true) :
    main w = .ok (goodResults, 0) ∧
    goodResults.all (fun r => r.2) = true ∧
    summaryCore (goodResults.filter (fun r => r.2)).length goodResults.length
      = "Total: 7/7 checks passed" := by
  have hdeps := check_dependencies_eq w.importEnv
    (tryImport_all_ok_no_error w.importEnv hdep)
  have hall : required_packages.all (fun p => resolvesSpec w.importEnv p)
      = true := by
    rw [List.all_eq_true]
    intro p hp
    rw [resolvesSpec_eq_isOk, hdep p hp]
    rfl
  rw [hall] at hdeps
  have hp1 := probe_result_running w.probe1 w.osEnviron hp1e hp1s hp1r hp1d
  have hp2 := probe_result_running w.probe2 w.osEnviron hp2e hp2s hp2r hp2d
  have hcr : collectResults w = .ok goodResults := by
    unfold collectResults
    rw [hdeps]
    simp only [hp1, hp2, hver, henc, hpath, check_python_path_true]
    rfl
  refine ⟨?_, rfl, rfl⟩
  unfold main
  rw [hcr]
  rfl

theorem all_good_run_witness :
    main goodWorld = .ok (goodResults, 0) ∧
    goodResults.all (fun r => r.2) = true ∧
    summaryCore (goodResults.filter (fun r => r.2)).length goodResults.length
      = "Total: 7/7 checks passed" :=
  all_good_run goodWorld rfl (fun p _ => allOk_tryImport p) rfl rfl
    rfl rfl rfl rfl rfl rfl rfl rfl

end MCP
